import Mathlib

/-!
Verification of the NDCell repository against its specification.

The first part embeds `Grid` from `src/src/automaton/space/grid.rs`: an
infinite sparse grid stored as a `HashMap` from chunk coordinates to
fixed-shape dense arrays of cells.  The embedding monomorphizes the tested
instantiation `Grid<u8, [isize; 3]>` (cell states as `Nat` with default 0,
positions as triples of integers) and models the `HashMap` as an
association list (lookup returns the first matching binding, exactly as a
map with unique keys).  A chunk (`ndarray::ArcArray` of fixed shape) is
modelled as a function from the flattened array index (`ndindex`) to the
cell value; only indices below the chunk volume are ever observed.

The coordinate-splitting helpers (`CellCoords → ChunkCoords` and
`CellCoords → LocalCoords` followed by `ndindex`, from the
`coords_container` module which is absent from the sources) are modelled
from the source comment that the grid is "stored in chunks of ~4k cells":
a position splits into the chunk index (floor division of each component
by the chunk side) and the flattened local index (remainder of each
component, row-major).  We use chunk side 16, giving the 16^3 = 4096-cell
chunks of the 3D instantiation; none of the verified claims depends on
the numeric value of the side.
-/

/-- A cell position, `CellCoords<[isize; 3]>`: one signed integer per axis. -/
abbrev Pos : Type := Int × Int × Int

/-- Chunk coordinates, `ChunkCoords<[isize; 3]>`. -/
abbrev ChunkIdx : Type := Int × Int × Int

/-- A dense chunk of cells (`ArcArray<u8, _>`), as a function from the
flattened array index to the cell value.  Only indices `< chunkVolume`
are observable. -/
abbrev Chunk : Type := Nat → Nat

/-- The number of cells on each edge of a chunk (the chunk shape is a
hypercube; the source stores "chunks of ~4k cells", 16^3 = 4096 in 3D). -/
def chunkSide : Nat := 16

/-- The total number of cells in one chunk. -/
def chunkVolume : Nat := 4096

/-- `CellCoords → ChunkCoords`: floor division of each component by the
chunk side. -/
def chunkOf (p : Pos) : ChunkIdx :=
  (p.1 / 16, p.2.1 / 16, p.2.2 / 16)

/-- `CellCoords → LocalCoords` followed by `LocalCoords::ndindex`: the
remainder of each component modulo the chunk side, flattened row-major
into a single array index. -/
def localIdx (p : Pos) : Nat :=
  (p.1 % 16).toNat * 256 + (p.2.1 % 16).toNat * 16 + (p.2.2 % 16).toNat

/-- The all-default chunk, `ArcArray::default(chunk_shape)`: every cell
holds the default state `0` (`u8::default()`). -/
def defaultChunk : Chunk := fun _ => 0

/-- Writing one cell of a chunk: `chunk[local_coords.ndindex()] = value`. -/
def writeCell (ch : Chunk) (j v : Nat) : Chunk :=
  fun x => if x = j then v else ch x

/-- The sparse grid `Grid<u8, [isize; 3]>`: a map from chunk coordinates
to chunks, modelled as an association list.  The `default_chunk` field of
the source is the constant `defaultChunk` (it is never written). -/
structure Grid where
  chunks : List (ChunkIdx × Chunk)

/-- `HashMap::get`: the first binding with the given key, if any. -/
def findChunk : List (ChunkIdx × Chunk) → ChunkIdx → Option Chunk
  | [], _ => none
  | (k, ch) :: rest, i => if k = i then some ch else findChunk rest i

/-- `HashMap::insert` of a fresh binding (used only when the key is absent). -/
def insertChunk (l : List (ChunkIdx × Chunk)) (i : ChunkIdx) (ch : Chunk) :
    List (ChunkIdx × Chunk) :=
  (i, ch) :: l

/-- Writing one cell of the chunk stored at the given key (the source
obtains `&mut` to the chunk and assigns one element). -/
def updateChunk : List (ChunkIdx × Chunk) → ChunkIdx → Nat → Nat →
    List (ChunkIdx × Chunk)
  | [], _, _, _ => []
  | (k, ch) :: rest, i, j, v =>
    if k = i then (k, writeCell ch j v) :: rest
    else (k, ch) :: updateChunk rest i j v

/-- `HashMap::remove`: drop the binding with the given key. -/
def removeChunk : List (ChunkIdx × Chunk) → ChunkIdx → List (ChunkIdx × Chunk)
  | [], _ => []
  | (k, ch) :: rest, i => if k = i then rest else (k, ch) :: removeChunk rest i

/-- `Grid::new`: an empty grid. -/
def Grid.new : Grid := ⟨[]⟩

/-- `Grid::get_chunk`: a reference to the chunk at the given chunk
coordinates, if it exists. -/
def Grid.get_chunk (g : Grid) (i : ChunkIdx) : Option Chunk :=
  findChunk g.chunks i

/-- `Grid::has_chunk`: whether there is a chunk at the given coordinates. -/
def Grid.has_chunk (g : Grid) (i : ChunkIdx) : Bool :=
  (g.get_chunk i).isSome

/-- `Grid::is_chunk_empty`: true if the chunk does not exist, else whether
every cell of the chunk equals the default state. -/
def Grid.is_chunk_empty (g : Grid) (i : ChunkIdx) : Bool :=
  match g.get_chunk i with
  | none => true
  | some ch => (List.range chunkVolume).all fun j => ch j == 0

/-- `Grid::is_empty`: every stored chunk is empty
(`self.chunks.keys().all(|k| self.is_chunk_empty(k))`). -/
def Grid.is_empty (g : Grid) : Bool :=
  g.chunks.all fun kv => g.is_chunk_empty kv.1

/-- `Grid::get_cell`: the cell at the given position; the default state
`0` when no chunk covers the position. -/
def Grid.get_cell (g : Grid) (p : Pos) : Nat :=
  match g.get_chunk (chunkOf p) with
  | some ch => ch (localIdx p)
  | none => 0

/-- `Grid::make_chunk`: insert a copy of the default chunk at the given
coordinates if there is none; otherwise do nothing. -/
def Grid.make_chunk (g : Grid) (i : ChunkIdx) : Grid :=
  if g.has_chunk i then g else ⟨insertChunk g.chunks i defaultChunk⟩

/-- `Grid::set_cell`: create the chunk covering the position if needed
(`infer_chunk_mut`), write the value into it, and return the previous
value of that cell (`std::mem::replace`).  After `make_chunk` the chunk
is always present; the `getD defaultChunk` fallback mirrors the source's
`.expect("Just created chunk, but not present")` being unreachable. -/
def Grid.set_cell (g : Grid) (p : Pos) (v : Nat) : Nat × Grid :=
  let i := chunkOf p
  let j := localIdx p
  let g1 := g.make_chunk i
  let ch := (findChunk g1.chunks i).getD defaultChunk
  (ch j, ⟨updateChunk g1.chunks i j v⟩)

/-- `Grid::remove_chunk_if_empty`: remove the chunk at the given
coordinates if it exists and is empty; return whether it was removed. -/
def Grid.remove_chunk_if_empty (g : Grid) (i : ChunkIdx) : Bool × Grid :=
  if g.has_chunk i && g.is_chunk_empty i then (true, ⟨removeChunk g.chunks i⟩)
  else (false, g)

/-- Well-formedness of the association-list model: chunk keys are unique,
as they are for the `HashMap` of the source. -/
def Grid.WF (g : Grid) : Prop :=
  (g.chunks.map Prod.fst).Nodup

/-! ### Basic lemmas about the chunk map -/

theorem findChunk_updateChunk_self (l : List (ChunkIdx × Chunk)) (i : ChunkIdx)
    (j v : Nat) :
    findChunk (updateChunk l i j v) i =
      (findChunk l i).map fun ch => writeCell ch j v := by
  induction l with
  | nil => rfl
  | cons hd tl ih =>
    obtain ⟨k, ch⟩ := hd
    by_cases h : k = i <;> simp [updateChunk, findChunk, h, ih]

theorem findChunk_make_chunk (g : Grid) (i : ChunkIdx) :
    findChunk (g.make_chunk i).chunks i =
      some ((findChunk g.chunks i).getD defaultChunk) := by
  unfold Grid.make_chunk Grid.has_chunk Grid.get_chunk
  cases h : findChunk g.chunks i with
  | none => simp [h, insertChunk, findChunk]
  | some ch => simp [h]

theorem findChunk_mem {l : List (ChunkIdx × Chunk)} {i : ChunkIdx} {ch : Chunk}
    (h : findChunk l i = some ch) : (i, ch) ∈ l := by
  induction l with
  | nil => simp [findChunk] at h
  | cons hd tl ih =>
    obtain ⟨k, c⟩ := hd
    by_cases hk : k = i
    · subst hk
      simp [findChunk] at h
      simp [h]
    · simp [findChunk, hk] at h
      exact List.mem_cons_of_mem _ (ih h)

theorem findChunk_isSome_of_mem {l : List (ChunkIdx × Chunk)}
    {kv : ChunkIdx × Chunk} (h : kv ∈ l) : (findChunk l kv.1).isSome := by
  induction l with
  | nil => simp at h
  | cons hd tl ih =>
    obtain ⟨k, c⟩ := hd
    by_cases hk : k = kv.1
    · simp [findChunk, hk]
    · rcases List.mem_cons.mp h with h1 | h2
      · subst h1; simp at hk
      · simpa [findChunk, hk] using ih h2

theorem findChunk_eq_none_of_not_mem {l : List (ChunkIdx × Chunk)}
    {i : ChunkIdx} (h : i ∉ l.map Prod.fst) : findChunk l i = none := by
  cases hf : findChunk l i with
  | none => rfl
  | some ch => exact absurd (List.mem_map_of_mem Prod.fst (findChunk_mem hf)) h

theorem findChunk_removeChunk_ne (l : List (ChunkIdx × Chunk))
    {i j : ChunkIdx} (h : j ≠ i) :
    findChunk (removeChunk l i) j = findChunk l j := by
  induction l with
  | nil => rfl
  | cons hd tl ih =>
    obtain ⟨k, c⟩ := hd
    by_cases hk : k = i
    · subst hk
      have hj : ¬k = j := fun e => h e.symm
      simp [removeChunk, findChunk, hj]
    · by_cases hj : k = j
      · subst hj
        simp [removeChunk, findChunk, hk]
      · simp [removeChunk, findChunk, hk, hj, ih]

theorem findChunk_removeChunk_self {l : List (ChunkIdx × Chunk)}
    (hnd : (l.map Prod.fst).Nodup) (i : ChunkIdx) :
    findChunk (removeChunk l i) i = none := by
  induction l with
  | nil => rfl
  | cons hd tl ih =>
    obtain ⟨k, c⟩ := hd
    simp at hnd
    by_cases hk : k = i
    · subst hk
      simp only [removeChunk, if_pos rfl]
      exact findChunk_eq_none_of_not_mem (by simpa using hnd.1)
    · simp [removeChunk, findChunk, hk, ih hnd.2]

/-- The flattened local index always lies inside the chunk. -/
theorem localIdx_lt (p : Pos) : localIdx p < chunkVolume := by
  unfold localIdx chunkVolume
  omega

/-! ### Claims about the grid -/

/-- Claim C1: for every position `p` and every cell state `s`, performing
`set_cell(p, s)` on a grid and then `get_cell(p)` returns `s`, regardless
of the prior contents of the grid. -/
theorem grid_set_get (g : Grid) (p : Pos) (s : Nat) :
    ((g.set_cell p s).2).get_cell p = s := by
  unfold Grid.set_cell Grid.get_cell Grid.get_chunk
  simp only [findChunk_updateChunk_self, findChunk_make_chunk]
  simp [writeCell]

/-- Claim C2: for every position `p` with no chunk covering it,
`get_cell(p)` returns the default state `0`.  `get_cell` is embedded as a
pure total function of the grid (in the source it takes `&self`), so it
can neither fail nor allocate new storage. -/
theorem get_cell_outside_footprint (g : Grid) (p : Pos)
    (h : g.get_chunk (chunkOf p) = none) : g.get_cell p = 0 := by
  unfold Grid.get_cell
  rw [h]

/-- Witness for C2: on the empty grid, the cell at the origin is `0`. -/
theorem get_cell_outside_footprint_witness :
    Grid.new.get_cell ((0 : Int), (0 : Int), (0 : Int)) = 0 :=
  get_cell_outside_footprint Grid.new ((0 : Int), (0 : Int), (0 : Int)) rfl

/-- Claim C9: `set_cell(p, s)` returns the value `get_cell(p)` would have
returned immediately before the call (the previous state, `0` when the
position was not yet backed by storage). -/
theorem set_cell_returns_previous (g : Grid) (p : Pos) (s : Nat) :
    (g.set_cell p s).1 = g.get_cell p := by
  unfold Grid.set_cell Grid.get_cell Grid.get_chunk
  simp only [findChunk_make_chunk]
  cases h : findChunk g.chunks (chunkOf p) with
  | none => simp [defaultChunk]
  | some ch => simp

/-- Claim C8: `is_empty` returns true exactly when every cell of the grid
holds the default state `0` (equivalently, when the count of non-default
cells is zero); a single non-default cell makes it return false. -/
theorem is_empty_iff_all_cells_default (g : Grid) :
    g.is_empty = true ↔ ∀ p : Pos, g.get_cell p = 0 := by
  constructor
  · intro h p
    unfold Grid.get_cell
    cases hf : g.get_chunk (chunkOf p) with
    | none => rfl
    | some ch =>
      have hmem : (chunkOf p, ch) ∈ g.chunks := findChunk_mem hf
      have hemp : g.is_chunk_empty (chunkOf p) = true := by
        have hall := List.all_eq_true.mp h _ hmem
        simpa using hall
      unfold Grid.is_chunk_empty at hemp
      rw [hf] at hemp
      have hj := List.all_eq_true.mp hemp (localIdx p)
        (List.mem_range.mpr (localIdx_lt p))
      simpa using hj
  · intro h
    unfold Grid.is_empty
    rw [List.all_eq_true]
    rintro ⟨k, ch0⟩ hmem
    obtain ⟨k1, k2, k3⟩ := k
    have hs : (findChunk g.chunks (k1, k2, k3)).isSome :=
      findChunk_isSome_of_mem hmem
    obtain ⟨ch, hch⟩ := Option.isSome_iff_exists.mp hs
    show g.is_chunk_empty (k1, k2, k3) = true
    unfold Grid.is_chunk_empty Grid.get_chunk
    rw [hch, List.all_eq_true]
    intro j hj
    rw [List.mem_range] at hj
    have hj4 : j < 4096 := by simpa [chunkVolume] using hj
    have hp := h (16 * k1 + ((j / 256 : Nat) : Int),
      16 * k2 + (((j % 256) / 16 : Nat) : Int), 16 * k3 + ((j % 16 : Nat) : Int))
    have hc : chunkOf (16 * k1 + ((j / 256 : Nat) : Int),
        16 * k2 + (((j % 256) / 16 : Nat) : Int),
        16 * k3 + ((j % 16 : Nat) : Int)) = (k1, k2, k3) := by
      unfold chunkOf
      simp only [Prod.mk.injEq]
      refine ⟨by omega, by omega, by omega⟩
    have hl : localIdx (16 * k1 + ((j / 256 : Nat) : Int),
        16 * k2 + (((j % 256) / 16 : Nat) : Int),
        16 * k3 + ((j % 16 : Nat) : Int)) = j := by
      show ((16 * k1 + ((j / 256 : Nat) : Int)) % 16).toNat * 256 +
        ((16 * k2 + (((j % 256) / 16 : Nat) : Int)) % 16).toNat * 16 +
        ((16 * k3 + ((j % 16 : Nat) : Int)) % 16).toNat = j
      omega
    unfold Grid.get_cell Grid.get_chunk at hp
    rw [hc, hch, hl] at hp
    simp only [beq_iff_eq]
    simpa using hp

/-- Claim C10: `remove_chunk_if_empty(c)` returns true exactly when a
chunk exists at `c` and all of its cells are the default state, and in
either case the call does not change the value `get_cell` returns at any
position.  The grid is assumed well-formed (unique chunk keys, as for the
`HashMap` of the source). -/
theorem remove_chunk_if_empty_spec (g : Grid) (i : ChunkIdx) (hwf : g.WF) :
    (g.remove_chunk_if_empty i).1 = (g.has_chunk i && g.is_chunk_empty i) ∧
    ∀ p : Pos, ((g.remove_chunk_if_empty i).2).get_cell p = g.get_cell p := by
  unfold Grid.remove_chunk_if_empty
  by_cases hc : (g.has_chunk i && g.is_chunk_empty i) = true
  · rw [if_pos hc]
    obtain ⟨hhas, hemp⟩ : g.has_chunk i = true ∧ g.is_chunk_empty i = true := by
      simpa using hc
    refine ⟨hc.symm, ?_⟩
    intro p
    by_cases hip : chunkOf p = i
    · unfold Grid.get_cell Grid.get_chunk
      rw [hip]
      obtain ⟨ch, hch⟩ := Option.isSome_iff_exists.mp
        (by simpa [Grid.has_chunk, Grid.get_chunk] using hhas)
      unfold Grid.WF at hwf
      rw [findChunk_removeChunk_self hwf i, hch]
      unfold Grid.is_chunk_empty Grid.get_chunk at hemp
      rw [hch] at hemp
      have hz := List.all_eq_true.mp hemp (localIdx p)
        (List.mem_range.mpr (localIdx_lt p))
      simp only [beq_iff_eq] at hz
      exact hz.symm
    · unfold Grid.get_cell Grid.get_chunk
      rw [findChunk_removeChunk_ne _ hip]
  · rw [if_neg hc]
    refine ⟨((Bool.not_eq_true _).mp hc).symm, fun p => rfl⟩

/-- Witness for C10: on the empty grid there is no chunk at the origin, so
nothing is removed and every cell is preserved. -/
theorem remove_chunk_if_empty_spec_witness :
    (Grid.new.remove_chunk_if_empty ((0 : Int), (0 : Int), (0 : Int))).1 =
      (Grid.new.has_chunk ((0 : Int), (0 : Int), (0 : Int)) &&
        Grid.new.is_chunk_empty ((0 : Int), (0 : Int), (0 : Int))) ∧
    ((Grid.new.remove_chunk_if_empty ((0 : Int), (0 : Int), (0 : Int))).2).get_cell
        ((5 : Int), (6 : Int), (7 : Int)) =
      Grid.new.get_cell ((5 : Int), (6 : Int), (7 : Int)) := by
  have h := remove_chunk_if_empty_spec Grid.new ((0 : Int), (0 : Int), (0 : Int))
    (by simp [Grid.WF, Grid.new])
  exact ⟨h.1, h.2 _⟩

/-!
### Automaton façade and step engine

The second part embeds `NdAutomaton` and `NdProjectedAutomaton` from
`src/core/src/lib.rs`, monomorphized at dimension 2 (`Automaton2D`); the
claims below do not depend on the dimension.  `BigInt` is embedded as
`Int`.

The ND-tree (`NdTree`, module `space` absent from the sources) is
modelled from the spec as a pair of a root node and an offset, where a
node is a single-cell leaf or a branch of `2^N = 4` children.  The step
engine (`Simulation::step`, module `simulation` absent from the sources)
is modelled from the spec: negative step counts are rejected with
`UnsupportedStepDirection`; every failure is a recoverable error value
("all non-panicking") and leaves the tree unchanged ("the engine commits
the new root only on full success"); the successful advance itself is
kept abstract as a field of `Simulation`, since no claim depends on the
cells it computes.  A rule whose transition function panics during the
advance is surfaced by the engine as the `RuleFailure` error, per the
spec.
-/

/-- Modelled from the spec: an ND-tree node (module `space` absent from
the sources), a single-cell leaf or a branch of `2^2 = 4` children. -/
inductive NdNode where
  | leaf (state : Nat)
  | branch (c0 c1 c2 c3 : NdNode)
deriving DecidableEq

/-- Modelled from the spec: an ND-tree, a pair of a root node and the
world coordinates of its low corner. -/
structure NdTree where
  root : NdNode
  offset : Int × Int
deriving DecidableEq

/-- The default (empty) ND-tree, `NdTree::default()`. -/
def NdTree.default : NdTree := ⟨.leaf 0, (0, 0)⟩

/-- Modelled from the spec: the recoverable error kinds reported by the
step engine (spec section on error handling). -/
inductive StepError where
  | unsupportedStepDirection
  | ruleOutputOutOfRange
  | ruleFailure
  | cancelled
  | arenaExhausted
deriving DecidableEq

/-- Modelled from the spec: the rule-bound step engine (`Simulation`,
module `simulation` absent from the sources).  Its observable behavior on
a non-negative step count is the memoized HashLife advance of the bound
rule, kept abstract as the field `advance`; the claims below depend only
on which `Except` constructor it returns. -/
structure Simulation where
  advance : NdTree → Int → Except StepError NdTree

/-- Modelled from the spec: `Simulation::step`.  A negative step count is
rejected with `UnsupportedStepDirection`; otherwise the engine advances
the tree.  Every error is returned with the tree uncommitted (the caller
keeps the previous tree). -/
def Simulation.step (sim : Simulation) (tree : NdTree) (n : Int) :
    Except StepError NdTree :=
  if n < 0 then .error .unsupportedStepDirection
  else sim.advance tree n

/-- The identity engine of the default (dummy) rule: the spec provides "a
dummy rule that returns the center cell", under which every advance
returns the tree unchanged. -/
def Simulation.dummy : Simulation := ⟨fun t _ => .ok t⟩

/-- `NdAutomaton<Dim2D>` from `src/core/src/lib.rs`: a tree, a rule-bound
simulation, and a generation count (`BigInt`, embedded as `Int`). -/
structure NdAutomaton where
  tree : NdTree
  sim : Simulation
  generations : Int

/-- `NdAutomaton::default()`: empty tree, dummy-rule simulation,
generation count zero. -/
def NdAutomaton.default : NdAutomaton := ⟨NdTree.default, Simulation.dummy, 0⟩

/-- `NdSimulate::get_ndim` for `NdAutomaton<Dim2D>`: `D::NDIM = 2`. -/
def NdAutomaton.get_ndim (_ : NdAutomaton) : Nat := 2

/-- `NdSimulate::step` for `NdAutomaton` (src/core/src/lib.rs lines
219-222): run the engine on the tree, then increment `generations` by
`step_size` unconditionally.  The engine writes the tree in place only on
success; the call returns `()`, so an engine error is not propagated. -/
def NdAutomaton.step (a : NdAutomaton) (n : Int) : NdAutomaton :=
  { a with
    tree :=
      match a.sim.step a.tree n with
      | .ok t => t
      | .error _ => a.tree
    generations := a.generations + n }

/-- Claim C3 counterexample: stepping the default automaton by `-1`
changes the generation counter from `0` to `-1`, so the automaton is not
left unchanged as the claim states. -/
theorem step_negative_counterexample :
    (NdAutomaton.default.step (-1)).generations = -1 ∧
    NdAutomaton.default.generations = 0 := by
  constructor <;> rfl

/-- Claim C3 as amended: for every automaton and step count `n < 0`, the
step engine rejects the request with `UnsupportedStepDirection` and the
tree is left unchanged, but `NdAutomaton::step` ignores the rejection and
still adds `n` to the generation counter. -/
theorem step_negative_behavior (a : NdAutomaton) (n : Int) (h : n < 0) :
    a.sim.step a.tree n = .error .unsupportedStepDirection ∧
    (a.step n).tree = a.tree ∧
    (a.step n).generations = a.generations + n := by
  have hs : a.sim.step a.tree n = .error .unsupportedStepDirection := by
    unfold Simulation.step
    rw [if_pos h]
  refine ⟨hs, ?_, rfl⟩
  unfold NdAutomaton.step
  rw [hs]

/-- Witness for the amended C3 at the default automaton and `n = -1`. -/
theorem step_negative_behavior_witness :
    NdAutomaton.default.sim.step NdAutomaton.default.tree (-1) =
      .error .unsupportedStepDirection ∧
    (NdAutomaton.default.step (-1)).tree = NdAutomaton.default.tree ∧
    (NdAutomaton.default.step (-1)).generations =
      NdAutomaton.default.generations + (-1) :=
  step_negative_behavior NdAutomaton.default (-1) (by decide)

/-- Claim C4: after a successful `step(n)`, the generation counter equals
its previous value plus `n`, and the dimension count and the rule binding
of the automaton are unchanged. -/
theorem step_success_updates_generations (a : NdAutomaton) (n : Int)
    (t : NdTree) (_h : a.sim.step a.tree n = .ok t) :
    (a.step n).generations = a.generations + n ∧
    (a.step n).get_ndim = a.get_ndim ∧
    (a.step n).sim = a.sim := by
  exact ⟨rfl, rfl, rfl⟩

/-- Witness for C4 at the default automaton and `n = 3`. -/
theorem step_success_updates_generations_witness :
    (NdAutomaton.default.step 3).generations =
      NdAutomaton.default.generations + 3 ∧
    (NdAutomaton.default.step 3).get_ndim = NdAutomaton.default.get_ndim ∧
    (NdAutomaton.default.step 3).sim = NdAutomaton.default.sim :=
  step_success_updates_generations NdAutomaton.default 3 NdTree.default rfl

/-- Claim C6 counterexample: an automaton whose rule panics during every
advance (surfaced by the engine as `RuleFailure`, per the spec) still has
its generation counter incremented from `0` to `1` by `step(1)`, so the
automaton is not left exactly as it was. -/
theorem step_rule_failure_counterexample :
    (NdAutomaton.mk NdTree.default ⟨fun _ _ => .error .ruleFailure⟩ 0).sim.step
        (NdAutomaton.mk NdTree.default ⟨fun _ _ => .error .ruleFailure⟩ 0).tree 1 =
      .error .ruleFailure ∧
    ((NdAutomaton.mk NdTree.default ⟨fun _ _ => .error .ruleFailure⟩ 0).step 1).generations = 1 := by
  constructor <;> rfl

/-- Claim C6 as amended: when the engine reports `RuleFailure` for a step
(the spec surfaces a panicking rule this way), the tree root is unchanged
(no partial commit), but `NdAutomaton::step` returns no error and still
adds `n` to the generation counter. -/
theorem step_rule_failure_behavior (a : NdAutomaton) (n : Int)
    (h : a.sim.step a.tree n = .error .ruleFailure) :
    (a.step n).tree = a.tree ∧
    (a.step n).generations = a.generations + n := by
  refine ⟨?_, rfl⟩
  unfold NdAutomaton.step
  rw [h]

/-- Witness for the amended C6 at a panicking rule and `n = 2`. -/
theorem step_rule_failure_behavior_witness :
    ((NdAutomaton.mk NdTree.default ⟨fun _ _ => .error .ruleFailure⟩ 7).step 2).tree =
      (NdAutomaton.mk NdTree.default ⟨fun _ _ => .error .ruleFailure⟩ 7).tree ∧
    ((NdAutomaton.mk NdTree.default ⟨fun _ _ => .error .ruleFailure⟩ 7).step 2).generations =
      (NdAutomaton.mk NdTree.default ⟨fun _ _ => .error .ruleFailure⟩ 7).generations + 2 :=
  step_rule_failure_behavior
    (NdAutomaton.mk NdTree.default ⟨fun _ _ => .error .ruleFailure⟩ 7) 2 rfl

/-!
### Projection surface

`NdProjectedAutomaton::set_projection_params` is in
`src/core/src/lib.rs` (lines 186-189): it converts the parameters with
`params.try_into()?`, so on a conversion error it returns early and the
previously installed projection is untouched.  The conversion itself
(`TryInto<NdProjectionInfo> for ProjectionParams`, module `projection`
absent from the sources) is modelled from the spec: parameters are a
choice of one storage axis per view axis plus a slice pinning the
remaining axes, and setting them "validates that (a) exactly P of the D
axes are chosen, (b) the slice pins the others, returning
`ProjectionShapeMismatch` otherwise". -/

/-- Modelled from the spec: the error type of projection-parameter
conversion. -/
inductive NdProjectionError where
  | projectionShapeMismatch
deriving DecidableEq

/-- Modelled from the spec: projection parameters, a list giving the
storage (D) axis for each view (P) axis, and a slice assigning a fixed
coordinate to each remaining storage axis. -/
structure ProjectionParams where
  chosenAxes : List Nat
  slice : List (Nat × Int)
deriving DecidableEq

/-- Modelled from the spec: a validated projection
(`NdProjectionInfo`). -/
structure NdProjectionInfo where
  params : ProjectionParams
deriving DecidableEq

/-- Modelled from the spec: whether the parameters consume exactly the
`d` storage axes for a `p`-dimensional view: exactly `p` distinct storage
axes are chosen, the slice pins the remaining `d - p` axes and no
others. -/
def paramsConsumeAxes (d p : Nat) (params : ProjectionParams) : Bool :=
  params.chosenAxes.length == p &&
  params.chosenAxes.all (fun a => a < d) &&
  decide params.chosenAxes.Nodup &&
  params.slice.all (fun s => s.1 < d && !(params.chosenAxes.contains s.1)) &&
  decide (params.slice.map Prod.fst).Nodup &&
  (List.range d).all
    (fun a => params.chosenAxes.contains a || (params.slice.map Prod.fst).contains a)

/-- Modelled from the spec: `params.try_into()`, validating the
parameters and returning `ProjectionShapeMismatch` when they do not
consume exactly the `d` storage axes. -/
def ProjectionParams.tryInto (d p : Nat) (params : ProjectionParams) :
    Except NdProjectionError NdProjectionInfo :=
  if paramsConsumeAxes d p params then .ok ⟨params⟩
  else .error .projectionShapeMismatch

/-- `NdProjectedAutomaton<D, P>` from `src/core/src/lib.rs`: an automaton
together with an installed projection. -/
structure NdProjectedAutomaton where
  automaton : NdAutomaton
  projection : NdProjectionInfo

/-- `NdProjectedAutomaton::set_projection_params` (src/core/src/lib.rs
lines 186-189): `self.projection = NdProjection(params.try_into()?)`.
The pair returned models the Rust `Result` together with the state of
`self` after the call. -/
def NdProjectedAutomaton.set_projection_params (d p : Nat)
    (a : NdProjectedAutomaton) (params : ProjectionParams) :
    Except NdProjectionError Unit × NdProjectedAutomaton :=
  match ProjectionParams.tryInto d p params with
  | .ok info => (.ok (), { a with projection := info })
  | .error e => (.error e, a)

/-- Claim C7: an invalid parameter set (one that does not consume exactly
the `d` storage axes) makes `set_projection_params` return
`ProjectionShapeMismatch` and leaves the previously installed projection
in effect; a valid parameter set succeeds and installs the new
projection. -/
theorem set_projection_params_spec (d p : Nat) (a : NdProjectedAutomaton)
    (params : ProjectionParams) :
    (paramsConsumeAxes d p params = false →
      a.set_projection_params d p params =
        (.error .projectionShapeMismatch, a)) ∧
    (paramsConsumeAxes d p params = true →
      a.set_projection_params d p params =
        (.ok (), { a with projection := ⟨params⟩ })) := by
  constructor
  · intro h
    unfold NdProjectedAutomaton.set_projection_params ProjectionParams.tryInto
    rw [h]
    rfl
  · intro h
    unfold NdProjectedAutomaton.set_projection_params ProjectionParams.tryInto
    rw [h]
    rfl

/-- Witness for C7 with `D = 3`, `P = 2`: the parameters choosing axes 0
and 1 and pinning axis 2 are accepted and installed; the parameters
choosing only axis 0 with an empty slice are rejected and the previous
projection is kept. -/
theorem set_projection_params_spec_witness :
    (NdProjectedAutomaton.mk NdAutomaton.default ⟨⟨[0, 1], [(2, 0)]⟩⟩).set_projection_params
        3 2 ⟨[0, 1], [(2, 5)]⟩ =
      (.ok (), NdProjectedAutomaton.mk NdAutomaton.default ⟨⟨[0, 1], [(2, 5)]⟩⟩) ∧
    (NdProjectedAutomaton.mk NdAutomaton.default ⟨⟨[0, 1], [(2, 0)]⟩⟩).set_projection_params
        3 2 ⟨[0], []⟩ =
      (.error .projectionShapeMismatch,
        NdProjectedAutomaton.mk NdAutomaton.default ⟨⟨[0, 1], [(2, 0)]⟩⟩) := by
  constructor
  · exact (set_projection_params_spec 3 2
      (NdProjectedAutomaton.mk NdAutomaton.default ⟨⟨[0, 1], [(2, 0)]⟩⟩)
      ⟨[0, 1], [(2, 5)]⟩).2 (by decide)
  · exact (set_projection_params_spec 3 2
      (NdProjectedAutomaton.mk NdAutomaton.default ⟨⟨[0, 1], [(2, 0)]⟩⟩)
      ⟨[0], []⟩).1 (by decide)

/-!
### Dimension bound of `ProjectedAutomaton::default`

`ProjectedAutomaton::<P>::default()` (src/core/src/lib.rs lines 74-117)
matches on `P::NDIM`: the arms `1 ..= 6` construct the corresponding
variant around `NdProjectedAutomaton::<P, P>::default()`, and the
catch-all arm is `unreachable!("Dimensions above 6 are not supported")`,
which panics (aborts); no recoverable `UnsupportedDimension` error exists
in the sources.  The outcome type below has a constructor for each way
the call can end: a constructed automaton tagged with its dimension, a
recoverable error (the channel the claim predicts, never produced by the
code), or a panic. -/

/-- The recoverable construction error predicted by the spec
(`UnsupportedDimension`); the source never produces it. -/
inductive NdConstructError where
  | unsupportedDimension
deriving DecidableEq

/-- Outcome of `ProjectedAutomaton::default()`: a value, a recoverable
error, or a panic (`unreachable!`). -/
inductive ProjectedAutomatonResult where
  | ok (ndim : Nat) (inner : NdProjectedAutomaton)
  | err (e : NdConstructError)
  | panicked (msg : String)

/-- The default projection installed by
`NdProjectedAutomaton::<D, D>::default()`: the identity choice of all `d`
axes with an empty slice. -/
def NdProjectedAutomaton.defaultFor (d : Nat) : NdProjectedAutomaton :=
  ⟨NdAutomaton.default, ⟨⟨List.range d, []⟩⟩⟩

/-- `ProjectedAutomaton::<P>::default()` (src/core/src/lib.rs lines
74-117): match on the dimension count; `1 ..= 6` construct the
corresponding variant, anything else hits
`unreachable!("Dimensions above 6 are not supported")`. -/
def ProjectedAutomaton.default (p : Nat) : ProjectedAutomatonResult :=
  match p with
  | 1 => .ok 1 (NdProjectedAutomaton.defaultFor 1)
  | 2 => .ok 2 (NdProjectedAutomaton.defaultFor 2)
  | 3 => .ok 3 (NdProjectedAutomaton.defaultFor 3)
  | 4 => .ok 4 (NdProjectedAutomaton.defaultFor 4)
  | 5 => .ok 5 (NdProjectedAutomaton.defaultFor 5)
  | 6 => .ok 6 (NdProjectedAutomaton.defaultFor 6)
  | _ => .panicked "Dimensions above 6 are not supported"

/-- Claim C5 counterexample: at dimension count 7 the construction ends
in the `unreachable!` panic (an abort), not in the recoverable
`UnsupportedDimension` error the claim states. -/
theorem projected_default_counterexample :
    ProjectedAutomaton.default 7 =
      .panicked "Dimensions above 6 are not supported" ∧
    ProjectedAutomaton.default 7 ≠
      .err .unsupportedDimension := by
  refine ⟨rfl, ?_⟩
  intro h
  exact ProjectedAutomatonResult.noConfusion h

/-- Claim C5 as amended: construction succeeds for every dimension count
in `1 ..= 6`; for a dimension count outside `1 ..= 6` the code aborts
with an `unreachable!` panic instead of returning a recoverable
`UnsupportedDimension` error. -/
theorem projected_default_dimension_check (p : Nat) :
    (1 ≤ p → p ≤ 6 →
      ProjectedAutomaton.default p = .ok p (NdProjectedAutomaton.defaultFor p)) ∧
    (p = 0 ∨ 7 ≤ p →
      ProjectedAutomaton.default p =
        .panicked "Dimensions above 6 are not supported") := by
  constructor
  · intro h1 h6
    interval_cases p <;> rfl
  · intro h
    have h7 : p = 0 ∨ ∃ m, p = m + 7 := by
      rcases h with h0 | h7
      · exact Or.inl h0
      · exact Or.inr ⟨p - 7, by omega⟩
    rcases h7 with rfl | ⟨m, rfl⟩ <;> rfl

/-- Witness for the amended C5 at dimensions 2 and 9. -/
theorem projected_default_dimension_check_witness :
    ProjectedAutomaton.default 2 = .ok 2 (NdProjectedAutomaton.defaultFor 2) ∧
    ProjectedAutomaton.default 9 =
      .panicked "Dimensions above 6 are not supported" :=
  ⟨(projected_default_dimension_check 2).1 (by decide) (by decide),
    (projected_default_dimension_check 9).2 (Or.inr (by decide))⟩
